import Mathlib

/-!
Shallow embedding of the `one` unified LLM client (`src/one/client.py`,
`src/one/providers/openai.py`, `src/one/providers/anthropic.py`) and proofs
about it.

Conventions of the embedding:
* Python `str` is Lean `String`; string helpers (`lower`, `startswith`) are
  defined over the underlying character list, mirroring the Python semantics
  for the ASCII range that the model-name prefixes live in.
* Python exceptions are modelled by the `PyError` inductive and fallible
  operations return `Except PyError _`.  A missing required positional
  argument or a duplicated keyword argument at a call site is Python's
  `TypeError`; it is part of the observable behaviour of the code and is
  modelled faithfully at each call site.
* The two vendor SDK clients are external collaborators; each is modelled as
  an oracle function from the request value the code builds to the response
  value the SDK would hand back.  Functions that issue requests also return
  the list of requests they issued, so that theorems can speak about the
  outbound traffic.
* JSON text carried on the structured-output path is modelled by its parsed
  document (the `Json` inductive); the text codec itself belongs to the
  vendor-side `pydantic`/`json` libraries, which the spec treats as external
  collaborators.
-/

namespace OneClient

/-! ## Python-level error model -/

/-- Observable Python-level failure kinds of the client facade: `ValueError`
(raised by provider detection), `TypeError` (raised by the interpreter at a
call whose arguments do not fit the callee's signature), pydantic's
`ValidationError`, `IndexError`, and errors raised inside a vendor SDK and
propagated unmodified. -/
inductive PyError where
  | valueError (msg : String)
  | typeError (msg : String)
  | validationError (msg : String)
  | indexError
  | sdkError (msg : String)
deriving DecidableEq, Repr

/-- The two domain-specific error kinds named by the spec: provider-detection
failure (a `ValueError`) and schema-validation failure (a `ValidationError`). -/
def PyError.isDomainError : PyError → Bool
  | .valueError _ => true
  | .validationError _ => true
  | _ => false

/-- Errors propagated from a vendor SDK unmodified. -/
def PyError.isSdkPassthrough : PyError → Bool
  | .sdkError _ => true
  | _ => false

/-- Decidable equality of `Except` results, so that concrete runs of the
embedded operations can be checked by `decide`. -/
instance {ε α : Type} [DecidableEq ε] [DecidableEq α] :
    DecidableEq (Except ε α) := fun x y =>
  match x, y with
  | .ok a, .ok b =>
    if h : a = b then .isTrue (by rw [h]) else .isFalse (by intro hc; injection hc; exact h ‹a = b›)
  | .error a, .error b =>
    if h : a = b then .isTrue (by rw [h]) else .isFalse (by intro hc; injection hc; exact h ‹a = b›)
  | .ok _, .error _ => .isFalse (by intro hc; exact Except.noConfusion hc)
  | .error _, .ok _ => .isFalse (by intro hc; exact Except.noConfusion hc)

/-! ## Python string primitives -/

/-- Lowercasing of one character, as Python's `str.lower` acts on the ASCII
range (the only range the model-name prefixes use). -/
def pyCharLower (c : Char) : Char :=
  if c.toNat ≥ 65 ∧ c.toNat ≤ 90 then Char.ofNat (c.toNat + 32) else c

/-- Python's `str.lower`. -/
def pyLower (s : String) : String :=
  ⟨s.data.map pyCharLower⟩

/-- Python's `str.startswith` with a single string argument. -/
def pyStartsWith (s pre : String) : Bool :=
  pre.data.isPrefixOf s.data

/-! ## Provider detection (`src/one/client.py`, `_detect_provider`) -/

/-- Message of the `ValueError` raised by `_detect_provider` (the braces and
quotes of the Python f-string rendered literally). -/
def detectErrorMsg (model : String) : String :=
  "Cannot detect provider from model name: " ++ model ++
    ". Model names should start with \x27gpt-\x27, \x27o1-\x27, \x27text-\x27 (OpenAI) " ++
    "or \x27claude-\x27 (Anthropic)"

/-- Embedding of `_detect_provider` from `src/one/client.py`: lowercase the
model name, return "openai" for the prefixes `gpt-`, `o1-`, `text-`,
"anthropic" for `claude-`, otherwise raise `ValueError`. -/
def detectProvider (model : String) : Except PyError String :=
  let modelLower := pyLower model
  if pyStartsWith modelLower "gpt-" || pyStartsWith modelLower "o1-" ||
      pyStartsWith modelLower "text-" then
    .ok "openai"
  else if pyStartsWith modelLower "claude-" then
    .ok "anthropic"
  else
    .error (.valueError (detectErrorMsg model))

/-! ## Request and response shapes of the two vendor SDKs -/

/-- One chat message, `{"role": ..., "content": ...}`. -/
structure ChatMessage where
  role : String
  content : String
deriving DecidableEq, Repr

/-- The request `OpenAIProvider.generate` passes to
`client.chat.completions.create`. -/
structure ChatRequest where
  model : String
  messages : List ChatMessage
  temperature : Rat
  maxTokens : Option Int
deriving DecidableEq, Repr

/-- The `message` of one choice of an OpenAI chat completion; `content` is
`Optional[str]` in the SDK. -/
structure ChatChoiceMessage where
  content : Option String
deriving DecidableEq, Repr

/-- One choice of an OpenAI chat completion. -/
structure ChatChoice where
  message : ChatChoiceMessage
deriving DecidableEq, Repr

/-- An OpenAI chat-completion response. -/
structure ChatResponse where
  choices : List ChatChoice
deriving DecidableEq, Repr

/-- The request the Anthropic provider passes to `client.messages.create`.
`system` is absent (`none`) on the plain-text path and carries the
schema-guided system prompt on the structured path. -/
structure AnthropicRequest where
  model : String
  maxTokens : Int
  temperature : Rat
  system : Option String
  messages : List ChatMessage
deriving DecidableEq, Repr

/-- One content block of an Anthropic response; `α` is the type modelling the
block's `text` payload (`String` on the plain path, a parsed JSON document on
the structured path). -/
structure ContentBlock (α : Type) where
  text : α
deriving DecidableEq, Repr

/-- An Anthropic messages response. -/
structure AnthropicResponse (α : Type) where
  content : List (ContentBlock α)
deriving DecidableEq, Repr

/-! ## OpenAI provider (`src/one/providers/openai.py`) -/

/-- The OpenAI SDK handle built by `OpenAIProvider.__init__`; it records the
key the constructor passed to `OpenAI(...)` (resolution against the
`OPENAI_API_KEY` environment variable happens on the vendor side). -/
structure OpenAIClient where
  apiKey : Option String
deriving DecidableEq, Repr

/-- State of an `OpenAIProvider` instance. -/
structure OpenAIProvider where
  client : OpenAIClient
deriving DecidableEq, Repr

/-- Embedding of `OpenAIProvider.__init__`: its signature takes only an
optional `api_key` keyword (no `model` parameter) and stores the SDK client. -/
def OpenAIProvider.init (apiKey : Option String) : OpenAIProvider :=
  ⟨⟨apiKey⟩⟩

/-- The request value `OpenAIProvider.generate` builds for
`client.chat.completions.create`: the stored arguments verbatim, with the
prompt as the single user message. -/
def chatRequestOf (prompt model : String) (temperature : Rat)
    (maxTokens : Option Int) : ChatRequest :=
  ⟨model, [⟨"user", prompt⟩], temperature, maxTokens⟩

/-- Embedding of `OpenAIProvider.generate`.  `client` is the oracle for
`self.client.chat.completions.create`.  Returns the list of requests issued
(exactly the one `create` call of the source) together with the result:
`response.choices[0].message.content or ""`, where indexing an empty choice
list is Python's `IndexError`. -/
def OpenAIProvider.generate (client : ChatRequest → ChatResponse)
    (_p : OpenAIProvider) (prompt : String) (model : String)
    (temperature : Rat) (maxTokens : Option Int) :
    List ChatRequest × Except PyError String :=
  let req := chatRequestOf prompt model temperature maxTokens
  ([req],
    match (client req).choices with
    | [] => .error .indexError
    | c :: _ => .ok (c.message.content.getD ""))

/-! ## Anthropic provider (`src/one/providers/anthropic.py`) -/

/-- The Anthropic SDK handle built by `AnthropicProvider.__init__`. -/
structure AnthropicClient where
  apiKey : Option String
deriving DecidableEq, Repr

/-- State of an `AnthropicProvider` instance: unlike the OpenAI one it stores
the model name (`super().__init__(model, api_key)` sets `self.model`). -/
structure AnthropicProvider where
  model : String
  client : AnthropicClient
deriving DecidableEq, Repr

/-- `AnthropicProvider.DEFAULT_MAX_TOKENS = 1024`. -/
def AnthropicProvider.DEFAULT_MAX_TOKENS : Int := 1024

/-- Arguments of a call to `AnthropicProvider.__init__` as written at a call
site: `model` is a required positional parameter, so a call site that omits
it is recorded with `model = none`. -/
structure AnthropicInitArgs where
  model : Option String
  apiKey : Option String
deriving DecidableEq, Repr

/-- The `TypeError` message the interpreter produces when
`AnthropicProvider(...)` is called without the required `model` argument. -/
def anthropicInitMissingModelMsg : String :=
  "AnthropicProvider.__init__() missing 1 required positional argument: \x27model\x27"

/-- Embedding of a call to `AnthropicProvider.__init__(self, model, api_key=None)`:
the interpreter raises `TypeError` when the required positional `model` is
absent from the call; otherwise the provider stores the model name and the
SDK client. -/
def AnthropicProvider.init (args : AnthropicInitArgs) :
    Except PyError AnthropicProvider :=
  match args.model with
  | none => .error (.typeError anthropicInitMissingModelMsg)
  | some m => .ok ⟨m, ⟨args.apiKey⟩⟩

/-- The request value `AnthropicProvider.generate` builds for
`client.messages.create`: `self.model`, the defaulted `max_tokens`, the given
temperature, no system prompt, and the prompt as the single user message. -/
def anthropicTextRequest (p : AnthropicProvider) (prompt : String)
    (temperature : Rat) (maxTokens : Option Int) : AnthropicRequest :=
  let mt := match maxTokens with
    | none => AnthropicProvider.DEFAULT_MAX_TOKENS
    | some v => v
  ⟨p.model, mt, temperature, none, [⟨"user", prompt⟩]⟩

/-- Embedding of `AnthropicProvider.generate`: default `max_tokens` to 1024
when `None`, issue one `messages.create` call, and return
`response.content[0].text`. -/
def AnthropicProvider.generate (client : AnthropicRequest → AnthropicResponse String)
    (p : AnthropicProvider) (prompt : String) (temperature : Rat)
    (maxTokens : Option Int) : List AnthropicRequest × Except PyError String :=
  let req := anthropicTextRequest p prompt temperature maxTokens
  ([req],
    match (client req).content with
    | [] => .error .indexError
    | b :: _ => .ok b.text)

/-! ## JSON documents and pydantic schemas

The structured-output path hands JSON text to `pydantic`'s
`model_validate_json` and builds a system prompt from
`response_format.model_json_schema()`.  Both belong to the external
`pydantic` library; they are modelled here for flat record schemas (named
fields of string or integer type, the shape exercised by the repository's
own `Person` test model), with JSON text represented by its parsed
document. -/

/-- A JSON document. -/
inductive Json where
  | str (s : String)
  | num (n : Int)
  | bool (b : Bool)
  | null
  | arr (elems : List Json)
  | obj (fields : List (String × Json))
deriving Repr

/-- Type of one schema field, as in a flat pydantic model. -/
inductive FieldTy where
  | str
  | int
deriving DecidableEq, Repr

/-- JSON-schema name of a field type (`"string"` / `"integer"`). -/
def FieldTy.schemaName : FieldTy → String
  | .str => "string"
  | .int => "integer"

/-- A caller-supplied structured-output schema: a pydantic model class with a
title and flat typed fields (e.g. the repository's `Person(name: str, age: int)`). -/
structure Schema where
  title : String
  fields : List (String × FieldTy)
deriving DecidableEq, Repr

/-- A primitive field value of an instance of a flat schema. -/
inductive Value where
  | vstr (s : String)
  | vint (n : Int)
deriving DecidableEq, Repr

/-- Serialization of one field value to JSON. -/
def Value.toJson : Value → Json
  | .vstr s => .str s
  | .vint n => .num n

/-- Whether a value inhabits a field type. -/
def Value.hasTy : Value → FieldTy → Bool
  | .vstr _, .str => true
  | .vint _, .int => true
  | _, _ => false

/-- An instance of a flat schema: its fields with their values, in field
order. -/
abbrev Inst := List (String × Value)

/-- Whether an instance consists of exactly the schema's fields, in order,
with values of the declared types. -/
def fieldsMatch : List (String × FieldTy) → Inst → Bool
  | [], [] => true
  | (n, ty) :: fs, (n2, v) :: vs => n2 == n && v.hasTy ty && fieldsMatch fs vs
  | _, _ => false

/-- Whether `i` is an instance of schema `s`. -/
def instMatches (s : Schema) (i : Inst) : Bool :=
  fieldsMatch s.fields i

/-- Pydantic serialization of an instance to a JSON document (the document a
caller's `model_dump_json` would emit as text). -/
def serializeInst (i : Inst) : Json :=
  .obj (i.map fun p => (p.1, p.2.toJson))

/-- Field lookup in a JSON object (no duplicate keys arise on the paths
modelled here). -/
def lookupField (name : String) : List (String × Json) → Option Json
  | [] => none
  | (k, v) :: rest => if k = name then some v else lookupField name rest

/-- Validation of one JSON value against a field type, as pydantic accepts a
JSON string for a `str` field and a JSON number for an `int` field. -/
def FieldTy.coerce : FieldTy → Json → Option Value
  | .str, .str s => some (.vstr s)
  | .int, .num n => some (.vint n)
  | _, _ => none

/-- Validation of a JSON object's fields against the schema fields: every
schema field must be present with a value of the declared type (extra object
fields are ignored, as pydantic does by default); any mismatch is a
`ValidationError`. -/
def validateFields : List (String × FieldTy) → List (String × Json) →
    Except PyError Inst
  | [], _ => .ok []
  | (name, ty) :: fs, objFields =>
    match lookupField name objFields with
    | none => .error (.validationError ("Field required: " ++ name))
    | some j =>
      match ty.coerce j with
      | none =>
        .error (.validationError
          ("Input should be a valid " ++ ty.schemaName ++ ": " ++ name))
      | some v =>
        match validateFields fs objFields with
        | .error e => .error e
        | .ok rest => .ok ((name, v) :: rest)

/-- Pydantic's `model_validate_json` on a parsed document: a non-object
document or any field mismatch is a `ValidationError`; otherwise the decoded
instance is returned. -/
def model_validate_json (s : Schema) (doc : Json) : Except PyError Inst :=
  match doc with
  | .obj fields => validateFields s.fields fields
  | _ => .error (.validationError "Input should be an object")

/-- Whether a JSON document matches a schema: it is an object carrying every
schema field with a value of the declared type. -/
def docMatches (s : Schema) (doc : Json) : Bool :=
  match doc with
  | .obj fields =>
    s.fields.all fun p =>
      match lookupField p.1 fields with
      | some j => (p.2.coerce j).isSome
      | none => false
  | _ => false

/-- Pydantic's `model_json_schema` for a flat model: the JSON-schema object
`\x7b"properties": ..., "required": ..., "title": ..., "type": "object"\x7d`. -/
def model_json_schema (s : Schema) : Json :=
  .obj
    [("properties",
      .obj (s.fields.map fun p =>
        (p.1, .obj [("title", .str p.1), ("type", .str p.2.schemaName)]))),
     ("required", .arr (s.fields.map fun p => .str p.1)),
     ("title", .str s.title),
     ("type", .str "object")]

/-- Escaping of one character inside a JSON string literal. -/
def escapeChar (c : Char) : List Char :=
  if c = '"' then ['\\', '"']
  else if c = '\\' then ['\\', '\\']
  else [c]

/-- Escaping of a string for inclusion in a JSON string literal. -/
def escapeStr (s : String) : String :=
  ⟨s.data.foldr (fun c acc => escapeChar c ++ acc) []⟩

mutual

/-- Rendering of a JSON document to text, modelling `json.dumps` (the
claims proved below do not depend on `indent` whitespace). -/
def Json.dumps : Json → String
  | .str s => "\"" ++ escapeStr s ++ "\""
  | .num n => toString n
  | .bool true => "true"
  | .bool false => "false"
  | .null => "null"
  | .arr elems => "[" ++ Json.dumpsElems elems ++ "]"
  | .obj fields => "\x7b" ++ Json.dumpsFields fields ++ "\x7d"

/-- Comma-separated rendering of array elements. -/
def Json.dumpsElems : List Json → String
  | [] => ""
  | [x] => Json.dumps x
  | x :: y :: rest => Json.dumps x ++ ", " ++ Json.dumpsElems (y :: rest)

/-- Comma-separated rendering of object fields. -/
def Json.dumpsFields : List (String × Json) → String
  | [] => ""
  | [(k, v)] => "\"" ++ escapeStr k ++ "\": " ++ Json.dumps v
  | (k, v) :: f :: rest =>
    "\"" ++ escapeStr k ++ "\": " ++ Json.dumps v ++ ", " ++
      Json.dumpsFields (f :: rest)

end

/-- The schema-guided system prompt `AnthropicProvider.generate_structured`
builds around `json.dumps(response_format.model_json_schema())`. -/
def systemPromptOf (schema : Schema) : String :=
  "You must respond with valid JSON that matches this schema:\n" ++
    Json.dumps (model_json_schema schema) ++
    "\n\nOnly return the JSON object, no other text."

/-- The request value `AnthropicProvider.generate_structured` builds for
`client.messages.create`: like the text path, plus the schema-guided system
prompt. -/
def structuredRequest (p : AnthropicProvider) (prompt : String)
    (schema : Schema) (temperature : Rat) (maxTokens : Option Int) :
    AnthropicRequest :=
  let mt := match maxTokens with
    | none => AnthropicProvider.DEFAULT_MAX_TOKENS
    | some v => v
  ⟨p.model, mt, temperature, some (systemPromptOf schema), [⟨"user", prompt⟩]⟩

/-- Embedding of `AnthropicProvider.generate_structured`: default
`max_tokens`, build the schema-guided system prompt, issue one
`messages.create` call, and run the response's first content block through
`model_validate_json` against the caller's schema. -/
def AnthropicProvider.generate_structured
    (client : AnthropicRequest → AnthropicResponse Json)
    (p : AnthropicProvider) (prompt : String) (schema : Schema)
    (temperature : Rat) (maxTokens : Option Int) :
    List AnthropicRequest × Except PyError Inst :=
  let req := structuredRequest p prompt schema temperature maxTokens
  ([req],
    match (client req).content with
    | [] => .error .indexError
    | b :: _ => model_validate_json schema b.text)

/-! ## Unified client facade (`src/one/client.py`, class `Model`) -/

/-- The provider instance a `Model` dispatches to. -/
inductive ProviderImpl where
  | openai (p : OpenAIProvider)
  | anthropic (p : AnthropicProvider)
deriving DecidableEq, Repr

/-- State of a constructed `Model`. -/
structure Model where
  model : String
  providerName : String
  provider : ProviderImpl
deriving DecidableEq, Repr

/-- Message of the defensive `ValueError` in the unreachable `else` branch of
`Model.__init__`. -/
def unknownProviderMsg (providerName : String) : String :=
  "Unknown provider: " ++ providerName ++
    ". Supported providers: openai, anthropic"

/-- Embedding of `Model.__init__`: detect the provider from the model name,
then construct the provider instance.  The source calls
`OpenAIProvider(api_key=api_key)` — which fits that signature — but
`AnthropicProvider(api_key=api_key)` omits the required positional `model`
parameter of `AnthropicProvider.__init__`, so that call site is embedded
with `model = none` and raises `TypeError`. -/
def Model.init (model : String) (apiKey : Option String) :
    Except PyError Model :=
  match detectProvider model with
  | .error e => .error e
  | .ok providerName =>
    if providerName = "openai" then
      .ok ⟨model, providerName, .openai (OpenAIProvider.init apiKey)⟩
    else if providerName = "anthropic" then
      match AnthropicProvider.init ⟨none, apiKey⟩ with
      | .error e => .error e
      | .ok p => .ok ⟨model, providerName, .anthropic p⟩
    else
      .error (.valueError (unknownProviderMsg providerName))

/-- The `TypeError` message the interpreter produces inside
`AnthropicProvider.generate` when `Model.generate` passes `model=self.model`:
`AnthropicProvider.generate` has no `model` parameter, so the argument lands
in `**kwargs` and collides with the explicit `model=self.model` of
`client.messages.create(...)`. -/
def anthropicDuplicateModelMsg : String :=
  "Anthropic.messages.create() got multiple values for keyword argument \x27model\x27"

/-- Embedding of `Model.generate`: dispatch on the stored provider.  On the
OpenAI branch the provider's `generate` is called with `model=self.model`
and its one request is issued; on the Anthropic branch the same
`model=self.model` keyword has no matching parameter, flows into `**kwargs`,
and makes the inner `messages.create` call raise `TypeError` before any
request leaves the process.  The first component pairs the OpenAI and
Anthropic request traces. -/
def Model.generate (clientO : ChatRequest → ChatResponse)
    (m : Model) (prompt : String) (temperature : Rat)
    (maxTokens : Option Int) :
    (List ChatRequest × List AnthropicRequest) × Except PyError String :=
  match m.provider with
  | .openai p =>
    let r := OpenAIProvider.generate clientO p prompt m.model temperature maxTokens
    ((r.1, []), r.2)
  | .anthropic _ =>
    (([], []), .error (.typeError anthropicDuplicateModelMsg))

/-! ## Helper lemmas -/

theorem charOfNat_toNat (n : Nat) (h1 : 65 ≤ n) (h2 : n ≤ 90) :
    (Char.ofNat (n + 32)).toNat = n + 32 := by
  have hv : Nat.isValidChar (n + 32) := Or.inl (by omega)
  simp [Char.ofNat, hv, Char.ofNatAux, Char.toNat, UInt32.toNat,
    BitVec.toNat_ofNatLt]

theorem pyCharLower_idem (c : Char) : pyCharLower (pyCharLower c) = pyCharLower c := by
  unfold pyCharLower
  by_cases h : c.toNat ≥ 65 ∧ c.toNat ≤ 90
  · have ht : (Char.ofNat (c.toNat + 32)).toNat = c.toNat + 32 :=
      charOfNat_toNat c.toNat h.1 h.2
    rw [if_pos h, ht]
    have hneg : ¬(c.toNat + 32 ≥ 65 ∧ c.toNat + 32 ≤ 90) := by omega
    rw [if_neg hneg]
  · rw [if_neg h, if_neg h]

theorem pyLower_idem (s : String) : pyLower (pyLower s) = pyLower s := by
  unfold pyLower
  simp [List.map_map, Function.comp_def, pyCharLower_idem]

theorem isPrefixOf_head {c : Char} {cs l : List Char}
    (h : (c :: cs).isPrefixOf l = true) : l.head? = some c := by
  cases l with
  | nil => simp [List.isPrefixOf] at h
  | cons b bs =>
    simp only [List.isPrefixOf, Bool.and_eq_true, beq_iff_eq] at h
    simp [h.1]

theorem pyStartsWith_head {t pre : String} {c : Char} {cs : List Char}
    (hpre : pre.data = c :: cs) (h : pyStartsWith t pre = true) :
    t.data.head? = some c := by
  unfold pyStartsWith at h
  rw [hpre] at h
  exact isPrefixOf_head h

/-- Two character-disjoint literal heads cannot both be prefixes. -/
theorem pyStartsWith_disjoint (t pre1 pre2 : String) (c d : Char)
    (cs ds : List Char) (h1 : pre1.data = c :: cs) (h2 : pre2.data = d :: ds)
    (hcd : c ≠ d) (hp1 : pyStartsWith t pre1 = true) :
    pyStartsWith t pre2 = false := by
  by_contra hb
  have hp2 : pyStartsWith t pre2 = true := by
    cases hx : pyStartsWith t pre2 with
    | false => exact absurd hx hb
    | true => rfl
  have e1 := pyStartsWith_head h1 hp1
  have e2 := pyStartsWith_head h2 hp2
  rw [e1] at e2
  exact hcd (Option.some.injEq _ _ ▸ e2)

theorem claude_not_openai {t : String} (h : pyStartsWith t "claude-" = true) :
    pyStartsWith t "gpt-" = false ∧ pyStartsWith t "o1-" = false ∧
      pyStartsWith t "text-" = false :=
  ⟨pyStartsWith_disjoint t "claude-" "gpt-" 'c' 'g' "laude-".data "pt-".data
      rfl rfl (by decide) h,
   pyStartsWith_disjoint t "claude-" "o1-" 'c' 'o' "laude-".data "1-".data
      rfl rfl (by decide) h,
   pyStartsWith_disjoint t "claude-" "text-" 'c' 't' "laude-".data "ext-".data
      rfl rfl (by decide) h⟩

theorem openai_not_claude {t : String}
    (h : pyStartsWith t "gpt-" = true ∨ pyStartsWith t "o1-" = true ∨
      pyStartsWith t "text-" = true) :
    pyStartsWith t "claude-" = false := by
  rcases h with h | h | h
  · exact pyStartsWith_disjoint t "gpt-" "claude-" 'g' 'c' "pt-".data
      "laude-".data rfl rfl (by decide) h
  · exact pyStartsWith_disjoint t "o1-" "claude-" 'o' 'c' "1-".data
      "laude-".data rfl rfl (by decide) h
  · exact pyStartsWith_disjoint t "text-" "claude-" 't' 'c' "ext-".data
      "laude-".data rfl rfl (by decide) h

/-! ## Claim theorems: provider detection -/

/-- C1: `_detect_provider` returns "openai" exactly when the lowercased model
name starts with "gpt-", "o1-", or "text-", returns "anthropic" exactly when
it starts with "claude-", and raises a detection `ValueError` for every
other string. -/
theorem detect_provider_spec (s : String) :
    (detectProvider s = .ok "openai" ↔
      (pyStartsWith (pyLower s) "gpt-" = true ∨
        pyStartsWith (pyLower s) "o1-" = true ∨
        pyStartsWith (pyLower s) "text-" = true)) ∧
    (detectProvider s = .ok "anthropic" ↔
      pyStartsWith (pyLower s) "claude-" = true) ∧
    ((¬ (pyStartsWith (pyLower s) "gpt-" = true ∨
        pyStartsWith (pyLower s) "o1-" = true ∨
        pyStartsWith (pyLower s) "text-" = true ∨
        pyStartsWith (pyLower s) "claude-" = true)) →
      detectProvider s = .error (.valueError (detectErrorMsg s))) := by
  unfold detectProvider
  by_cases h1 : pyStartsWith (pyLower s) "gpt-" = true ∨
      pyStartsWith (pyLower s) "o1-" = true ∨
      pyStartsWith (pyLower s) "text-" = true
  · have hb : (pyStartsWith (pyLower s) "gpt-" || pyStartsWith (pyLower s) "o1-" ||
        pyStartsWith (pyLower s) "text-") = true := by
      rcases h1 with h | h | h <;> simp [h]
    have hc := openai_not_claude h1
    refine ⟨?_, ?_, ?_⟩
    · simp [hb, h1]
    · simp [hb, hc]
    · intro hn
      exact absurd h1 (fun h => hn (by tauto))
  · have hb : (pyStartsWith (pyLower s) "gpt-" || pyStartsWith (pyLower s) "o1-" ||
        pyStartsWith (pyLower s) "text-") = false := by
      push_neg at h1
      simp only [Bool.or_eq_false_iff]
      exact ⟨⟨Bool.not_eq_true _ ▸ h1.1, Bool.not_eq_true _ ▸ h1.2.1⟩,
        Bool.not_eq_true _ ▸ h1.2.2⟩
    by_cases h2 : pyStartsWith (pyLower s) "claude-" = true
    · refine ⟨?_, ?_, ?_⟩
      · simp [hb, h2, h1]
      · simp [hb, h2]
      · intro hn
        exact absurd (by tauto : pyStartsWith (pyLower s) "gpt-" = true ∨
          pyStartsWith (pyLower s) "o1-" = true ∨
          pyStartsWith (pyLower s) "text-" = true ∨
          pyStartsWith (pyLower s) "claude-" = true) hn
    · have h2f : pyStartsWith (pyLower s) "claude-" = false :=
        Bool.not_eq_true _ ▸ h2
      refine ⟨?_, ?_, ?_⟩
      · simp [hb, h2f, h1]
      · simp [hb, h2f]
      · intro _
        simp [hb, h2f]

/-- C1 witness: the theorem evaluated at "gpt-4o-mini". -/
theorem detect_provider_spec_witness :
    detectProvider "gpt-4o-mini" = .ok "openai" :=
  (detect_provider_spec "gpt-4o-mini").1.mpr (Or.inl (by decide))

/-- C8 counterexample: for an undetectable model name with uppercase letters,
`_detect_provider(s)` and `_detect_provider(s.lower())` raise detection
errors whose messages quote different strings, so the results are not
equal. -/
theorem detect_provider_case_counterexample :
    detectProvider "FOO" ≠ detectProvider (pyLower "FOO") := by decide

/-- C8 (amended): provider detection is case-insensitive up to the error
message: `_detect_provider(s)` returns a provider exactly when
`_detect_provider(s.lower())` returns the same provider, and raises a
detection `ValueError` exactly when the lowercased run does. -/
theorem detect_provider_case_insensitive (s : String) :
    (∀ p, detectProvider s = .ok p ↔ detectProvider (pyLower s) = .ok p) ∧
    ((∃ m, detectProvider s = .error (.valueError m)) ↔
      (∃ m, detectProvider (pyLower s) = .error (.valueError m))) := by
  unfold detectProvider
  rw [pyLower_idem]
  by_cases h1 : (pyStartsWith (pyLower s) "gpt-" || pyStartsWith (pyLower s) "o1-" ||
      pyStartsWith (pyLower s) "text-") = true
  · simp [h1]
  · have h1f := Bool.not_eq_true _ ▸ h1
    by_cases h2 : pyStartsWith (pyLower s) "claude-" = true
    · simp [h1f, h2]
    · have h2f := Bool.not_eq_true _ ▸ h2
      simp [h1f, h2f]

/-- C8 witness: the amended theorem evaluated at "CLAUDE-2.1". -/
theorem detect_provider_case_insensitive_witness :
    detectProvider "CLAUDE-2.1" = .ok "anthropic" ↔
      detectProvider (pyLower "CLAUDE-2.1") = .ok "anthropic" :=
  (detect_provider_case_insensitive "CLAUDE-2.1").1 "anthropic"

/-! ## Claim theorems: facade construction -/

/-- C2: constructing `Model` with an Anthropic model name does not succeed:
`Model.__init__` calls `AnthropicProvider(api_key=api_key)` without the
required positional `model` argument, so the interpreter raises `TypeError`
instead of dispatching to the Anthropic-backed provider (the repository's
own test `test_init_anthropic_model` expects the call
`AnthropicProvider(model=..., api_key=...)`). -/
theorem model_init_claude_missing_required_model :
    Model.init "claude-3-5-sonnet-20241022" (some "test-key") =
      .error (.typeError anthropicInitMissingModelMsg) := by decide

/-- C3: the failure raised by `Model` construction for an Anthropic model
name is neither of the two domain-specific error kinds (detection
`ValueError`, schema `ValidationError`) nor an error propagated from a
vendor SDK — it is a `TypeError` originating in the facade's own call
site. -/
theorem model_init_claude_error_not_domain_not_sdk :
    ∃ e, Model.init "claude-3-5-sonnet-20241022" none = .error e ∧
      e.isDomainError = false ∧ e.isSdkPassthrough = false :=
  ⟨.typeError anthropicInitMissingModelMsg, by decide, by decide, by decide⟩

/-! ## Claim theorems: request construction -/

/-- C10: on both Anthropic entry points the outbound request carries
`max_tokens = 1024` (`DEFAULT_MAX_TOKENS`) when the argument is left `None`,
and the given value when one is given. -/
theorem anthropic_max_tokens_default
    (clientT : AnthropicRequest → AnthropicResponse String)
    (clientS : AnthropicRequest → AnthropicResponse Json)
    (p : AnthropicProvider) (prompt : String) (schema : Schema)
    (temperature : Rat) (v : Int) :
    ((AnthropicProvider.generate clientT p prompt temperature none).1.map
        (fun r => r.maxTokens) = [1024]) ∧
    ((AnthropicProvider.generate clientT p prompt temperature (some v)).1.map
        (fun r => r.maxTokens) = [v]) ∧
    ((AnthropicProvider.generate_structured clientS p prompt schema temperature
        none).1.map (fun r => r.maxTokens) = [1024]) ∧
    ((AnthropicProvider.generate_structured clientS p prompt schema temperature
        (some v)).1.map (fun r => r.maxTokens) = [v]) :=
  ⟨rfl, rfl, rfl, rfl⟩

/-- C10 witness: the theorem evaluated at a concrete provider and prompt. -/
theorem anthropic_max_tokens_default_witness :
    ((AnthropicProvider.generate (fun _ => ⟨[⟨"Paris"⟩]⟩) ⟨"claude-3", ⟨none⟩⟩
        "hi" (0.7 : Rat) none).1.map (fun r => r.maxTokens) = [1024]) ∧
    ((AnthropicProvider.generate (fun _ => ⟨[⟨"Paris"⟩]⟩) ⟨"claude-3", ⟨none⟩⟩
        "hi" (0.7 : Rat) (some 200)).1.map (fun r => r.maxTokens) = [200]) ∧
    ((AnthropicProvider.generate_structured (fun _ => ⟨[⟨.null⟩]⟩)
        ⟨"claude-3", ⟨none⟩⟩ "hi" ⟨"Person", []⟩ (0.7 : Rat) none).1.map
        (fun r => r.maxTokens) = [1024]) ∧
    ((AnthropicProvider.generate_structured (fun _ => ⟨[⟨.null⟩]⟩)
        ⟨"claude-3", ⟨none⟩⟩ "hi" ⟨"Person", []⟩ (0.7 : Rat) (some 200)).1.map
        (fun r => r.maxTokens) = [200]) :=
  anthropic_max_tokens_default (fun _ => ⟨[⟨"Paris"⟩]⟩) (fun _ => ⟨[⟨.null⟩]⟩)
    ⟨"claude-3", ⟨none⟩⟩ "hi" ⟨"Person", []⟩ (0.7 : Rat) 200

/-- C7: on the Anthropic structured path the single outbound request carries
a system prompt containing the JSON schema derived from the caller's schema,
while the user message list carries only the caller's prompt. -/
theorem anthropic_structured_schema_prompting
    (client : AnthropicRequest → AnthropicResponse Json)
    (p : AnthropicProvider) (prompt : String) (schema : Schema)
    (temperature : Rat) (maxTokens : Option Int) :
    ∃ before after,
      (AnthropicProvider.generate_structured client p prompt schema temperature
          maxTokens).1 =
        [structuredRequest p prompt schema temperature maxTokens] ∧
      (structuredRequest p prompt schema temperature maxTokens).system =
        some (before ++ Json.dumps (model_json_schema schema) ++ after) ∧
      (structuredRequest p prompt schema temperature maxTokens).messages =
        [⟨"user", prompt⟩] :=
  ⟨"You must respond with valid JSON that matches this schema:\n",
   "\n\nOnly return the JSON object, no other text.", rfl, rfl, rfl⟩

/-- C7 witness: the theorem evaluated at a concrete schema and prompt. -/
theorem anthropic_structured_schema_prompting_witness :
    ∃ before after,
      (AnthropicProvider.generate_structured (fun _ => ⟨[⟨.null⟩]⟩)
          ⟨"claude-3", ⟨none⟩⟩ "extract" ⟨"Person", [("name", .str)]⟩
          (0.7 : Rat) none).1 =
        [structuredRequest ⟨"claude-3", ⟨none⟩⟩ "extract"
          ⟨"Person", [("name", .str)]⟩ (0.7 : Rat) none] ∧
      (structuredRequest ⟨"claude-3", ⟨none⟩⟩ "extract"
          ⟨"Person", [("name", .str)]⟩ (0.7 : Rat) none).system =
        some (before ++
          Json.dumps (model_json_schema ⟨"Person", [("name", .str)]⟩) ++ after) ∧
      (structuredRequest ⟨"claude-3", ⟨none⟩⟩ "extract"
          ⟨"Person", [("name", .str)]⟩ (0.7 : Rat) none).messages =
        [⟨"user", "extract"⟩] :=
  anthropic_structured_schema_prompting (fun _ => ⟨[⟨.null⟩]⟩)
    ⟨"claude-3", ⟨none⟩⟩ "extract" ⟨"Person", [("name", .str)]⟩ (0.7 : Rat) none

/-- C9: `OpenAIProvider.generate` totalizes the optional message content:
whenever the response has a first choice, the result is its content when
present and the empty string when the content is `None`. -/
theorem openai_generate_content_total
    (client : ChatRequest → ChatResponse) (p : OpenAIProvider)
    (prompt model : String) (temperature : Rat) (maxTokens : Option Int)
    (c : ChatChoice) (cs : List ChatChoice)
    (h : (client (chatRequestOf prompt model temperature maxTokens)).choices =
      c :: cs) :
    (OpenAIProvider.generate client p prompt model temperature maxTokens).2 =
      .ok (c.message.content.getD "") ∧
    (c.message.content = none →
      (OpenAIProvider.generate client p prompt model temperature maxTokens).2 =
        .ok "") ∧
    (∀ s, c.message.content = some s →
      (OpenAIProvider.generate client p prompt model temperature maxTokens).2 =
        .ok s) := by
  refine ⟨?_, ?_, ?_⟩
  · simp [OpenAIProvider.generate, h]
  · intro hn
    simp [OpenAIProvider.generate, h, hn]
  · intro s hs
    simp [OpenAIProvider.generate, h, hs]

/-- C9 witness: the theorem evaluated at a response whose first choice has
`content = None`. -/
theorem openai_generate_content_total_witness :
    ((fun _ => (⟨[⟨⟨none⟩⟩]⟩ : ChatResponse))
        (chatRequestOf "q" "gpt-4o-mini" (0.7 : Rat) none)).choices =
      ⟨⟨none⟩⟩ :: [] ∧
    (OpenAIProvider.generate (fun _ => ⟨[⟨⟨none⟩⟩]⟩) ⟨⟨none⟩⟩ "q" "gpt-4o-mini"
        (0.7 : Rat) none).2 = .ok "" :=
  ⟨rfl,
    (openai_generate_content_total (fun _ => ⟨[⟨⟨none⟩⟩]⟩) ⟨⟨none⟩⟩ "q"
      "gpt-4o-mini" (0.7 : Rat) none ⟨⟨none⟩⟩ [] rfl).2.1 rfl⟩

/-- C6: for a model name with an OpenAI prefix, construction succeeds, and
`Model.generate` issues exactly one request whose model is the stored name,
whose message list is the single user message with the given prompt, and
whose temperature and max_tokens are the given arguments; the result is the
first choice's message content. -/
theorem model_generate_openai_single_request
    (clientO : ChatRequest → ChatResponse) (name : String)
    (key : Option String) (prompt : String) (temperature : Rat)
    (maxTokens : Option Int)
    (h : pyStartsWith (pyLower name) "gpt-" = true ∨
      pyStartsWith (pyLower name) "o1-" = true ∨
      pyStartsWith (pyLower name) "text-" = true) :
    ∃ m, Model.init name key = .ok m ∧ m.model = name ∧
      (Model.generate clientO m prompt temperature maxTokens).1 =
        ([chatRequestOf prompt name temperature maxTokens], []) ∧
      (∀ c cs s,
        (clientO (chatRequestOf prompt name temperature maxTokens)).choices =
          c :: cs →
        c.message.content = some s →
        (Model.generate clientO m prompt temperature maxTokens).2 = .ok s) := by
  have hd : detectProvider name = .ok "openai" := (detect_provider_spec name).1.mpr h
  refine ⟨⟨name, "openai", .openai (OpenAIProvider.init key)⟩, ?_, rfl, rfl, ?_⟩
  · unfold Model.init
    rw [hd]
    rfl
  · intro c cs s hc hs
    have := (openai_generate_content_total clientO (OpenAIProvider.init key)
      prompt name temperature maxTokens c cs hc).2.2 s hs
    simpa [Model.generate] using this

/-- C6 witness: the theorem evaluated at "gpt-4o-mini" with a one-choice
response carrying "Paris". -/
theorem model_generate_openai_single_request_witness :
    pyStartsWith (pyLower "gpt-4o-mini") "gpt-" = true ∧
    (∃ m, Model.init "gpt-4o-mini" (some "k") = .ok m ∧ m.model = "gpt-4o-mini" ∧
      (Model.generate (fun _ => ⟨[⟨⟨some "Paris"⟩⟩]⟩) m "q" (0.7 : Rat) none).1 =
        ([chatRequestOf "q" "gpt-4o-mini" (0.7 : Rat) none], []) ∧
      (∀ c cs s,
        ((fun _ => (⟨[⟨⟨some "Paris"⟩⟩]⟩ : ChatResponse))
            (chatRequestOf "q" "gpt-4o-mini" (0.7 : Rat) none)).choices =
          c :: cs →
        c.message.content = some s →
        (Model.generate (fun _ => ⟨[⟨⟨some "Paris"⟩⟩]⟩) m "q" (0.7 : Rat)
            none).2 = .ok s)) :=
  ⟨by decide,
    model_generate_openai_single_request (fun _ => ⟨[⟨⟨some "Paris"⟩⟩]⟩)
      "gpt-4o-mini" (some "k") "q" (0.7 : Rat) none (Or.inl (by decide))⟩

/-! ## Validation lemmas for the structured-output path -/

theorem coerce_of_hasTy (v : Value) (ty : FieldTy) (h : v.hasTy ty = true) :
    ty.coerce v.toJson = some v := by
  cases v <;> cases ty
  · rfl
  · exact absurd h (by simp [Value.hasTy])
  · exact absurd h (by simp [Value.hasTy])
  · rfl

theorem hasTy_of_coerce (ty : FieldTy) (j : Json) (v : Value)
    (h : ty.coerce j = some v) : v.hasTy ty = true := by
  cases ty <;> cases j <;>
    simp only [FieldTy.coerce, Option.some.injEq] at h
  all_goals first
  | exact absurd h (by simp)
  | (subst h; rfl)

theorem lookupField_cons_self (name : String) (x : Json)
    (obj : List (String × Json)) :
    lookupField name ((name, x) :: obj) = some x := by
  simp [lookupField]

theorem lookupField_cons_ne (name k : String) (x : Json)
    (obj : List (String × Json)) (h : k ≠ name) :
    lookupField name ((k, x) :: obj) = lookupField name obj := by
  simp [lookupField, h]

theorem validateFields_cons_ne (fs : List (String × FieldTy)) (k : String)
    (x : Json) (obj : List (String × Json)) (h : ∀ p ∈ fs, p.1 ≠ k) :
    validateFields fs ((k, x) :: obj) = validateFields fs obj := by
  induction fs with
  | nil => rfl
  | cons hd tl ih =>
    obtain ⟨name, ty⟩ := hd
    have hne : k ≠ name := Ne.symm (h ⟨name, ty⟩ (by simp))
    have htl : ∀ p ∈ tl, p.1 ≠ k := fun p hp => h p (List.mem_cons_of_mem _ hp)
    simp only [validateFields, lookupField_cons_ne name k x obj hne, ih htl]

theorem validateFields_serialize (fs : List (String × FieldTy)) (i : Inst)
    (hnd : (fs.map Prod.fst).Nodup) (hm : fieldsMatch fs i = true) :
    validateFields fs (i.map fun p => (p.1, p.2.toJson)) = .ok i := by
  induction fs generalizing i with
  | nil =>
    cases i with
    | nil => rfl
    | cons a as => simp [fieldsMatch] at hm
  | cons hd tl ih =>
    obtain ⟨n, ty⟩ := hd
    cases i with
    | nil => simp [fieldsMatch] at hm
    | cons a as =>
      obtain ⟨n2, v⟩ := a
      simp only [fieldsMatch, Bool.and_eq_true, beq_iff_eq] at hm
      obtain ⟨⟨hn, hty⟩, hmrest⟩ := hm
      subst hn
      have hndtl : (tl.map Prod.fst).Nodup := List.Nodup.of_cons hnd
      have hnot : n2 ∉ tl.map Prod.fst := (List.nodup_cons.mp hnd).1
      have hcons : ∀ p ∈ tl, p.1 ≠ n2 := by
        intro p hp he
        exact hnot (he ▸ List.mem_map_of_mem Prod.fst hp)
      have hcoerce : ty.coerce v.toJson = some v := coerce_of_hasTy v ty hty
      simp only [List.map_cons, validateFields, lookupField_cons_self, hcoerce,
        validateFields_cons_ne tl n2 v.toJson _ hcons, ih as hndtl hmrest]

theorem validateFields_ok_of_all (fs : List (String × FieldTy))
    (obj : List (String × Json))
    (h : (fs.all fun p =>
      match lookupField p.1 obj with
      | some j => (p.2.coerce j).isSome
      | none => false) = true) :
    ∃ i, validateFields fs obj = .ok i ∧ fieldsMatch fs i = true := by
  induction fs with
  | nil => exact ⟨[], rfl, rfl⟩
  | cons hd tl ih =>
    obtain ⟨name, ty⟩ := hd
    simp only [List.all_cons, Bool.and_eq_true] at h
    obtain ⟨hhd, htl⟩ := h
    cases hl : lookupField name obj with
    | none => rw [hl] at hhd; simp at hhd
    | some j =>
      rw [hl] at hhd
      have hsome : (ty.coerce j).isSome = true := by simpa using hhd
      obtain ⟨v, hc⟩ := Option.isSome_iff_exists.mp hsome
      obtain ⟨i, hok, hm⟩ := ih htl
      refine ⟨(name, v) :: i, ?_, ?_⟩
      · simp [validateFields, hl, hc, hok]
      · simp [fieldsMatch, hasTy_of_coerce ty j v hc, hm]

theorem validateFields_error_of_not_all (fs : List (String × FieldTy))
    (obj : List (String × Json))
    (h : (fs.all fun p =>
      match lookupField p.1 obj with
      | some j => (p.2.coerce j).isSome
      | none => false) = false) :
    ∃ m, validateFields fs obj = .error (.validationError m) := by
  induction fs with
  | nil => simp [List.all_nil] at h
  | cons hd tl ih =>
    obtain ⟨name, ty⟩ := hd
    cases hl : lookupField name obj with
    | none =>
      exact ⟨"Field required: " ++ name, by simp [validateFields, hl]⟩
    | some j =>
      cases hc : ty.coerce j with
      | none =>
        exact ⟨"Input should be a valid " ++ ty.schemaName ++ ": " ++ name,
          by simp [validateFields, hl, hc]⟩
      | some v =>
        have htl : (tl.all fun p =>
            match lookupField p.1 obj with
            | some j => (p.2.coerce j).isSome
            | none => false) = false := by
          simp only [List.all_cons, hl, hc] at h
          simpa using h
        obtain ⟨m, hm⟩ := ih htl
        exact ⟨m, by simp [validateFields, hl, hc, hm]⟩

/-! ## Claim theorems: structured output -/

/-- C4: structured output round-trips through JSON on the Anthropic path:
serializing any instance of a caller-supplied schema and decoding it the way
`generate_structured` decodes a response (`model_validate_json` against the
same schema) yields the original instance. -/
theorem structured_roundtrip (s : Schema) (i : Inst)
    (hnd : (s.fields.map Prod.fst).Nodup) (hm : instMatches s i = true) :
    model_validate_json s (serializeInst i) = .ok i := by
  unfold model_validate_json serializeInst
  exact validateFields_serialize s.fields i hnd hm

/-- C4 witness: the theorem evaluated at the repository's `Person` schema and
the instance `Person(name="John", age=30)`. -/
theorem structured_roundtrip_witness :
    ((((⟨"Person", [("name", .str), ("age", .int)]⟩ : Schema)).fields.map
        Prod.fst).Nodup ∧
      instMatches ⟨"Person", [("name", .str), ("age", .int)]⟩
        [("name", .vstr "John"), ("age", .vint 30)] = true) ∧
    model_validate_json ⟨"Person", [("name", .str), ("age", .int)]⟩
      (serializeInst [("name", .vstr "John"), ("age", .vint 30)]) =
      .ok [("name", .vstr "John"), ("age", .vint 30)] :=
  ⟨⟨by decide, by decide⟩,
    structured_roundtrip ⟨"Person", [("name", .str), ("age", .int)]⟩
      [("name", .vstr "John"), ("age", .vint 30)] (by decide) (by decide)⟩

/-- C5: on the Anthropic structured path, whenever the response carries a
first content block, `generate_structured` returns a validated instance of
the caller's schema when the block's document matches the schema, and fails
with a `ValidationError` exactly when it does not. -/
theorem generate_structured_validates
    (client : AnthropicRequest → AnthropicResponse Json)
    (p : AnthropicProvider) (prompt : String) (schema : Schema)
    (temperature : Rat) (maxTokens : Option Int) (b : ContentBlock Json)
    (bs : List (ContentBlock Json))
    (hresp : (client (structuredRequest p prompt schema temperature
        maxTokens)).content = b :: bs) :
    (docMatches schema b.text = true →
      ∃ i, (AnthropicProvider.generate_structured client p prompt schema
          temperature maxTokens).2 = .ok i ∧ instMatches schema i = true) ∧
    (docMatches schema b.text = false →
      ∃ m, (AnthropicProvider.generate_structured client p prompt schema
          temperature maxTokens).2 = .error (.validationError m)) := by
  have hres : (AnthropicProvider.generate_structured client p prompt schema
      temperature maxTokens).2 = model_validate_json schema b.text := by
    simp [AnthropicProvider.generate_structured, hresp]
  constructor
  · intro hdoc
    cases ht : b.text with
    | obj fields =>
      rw [ht] at hdoc
      simp only [docMatches] at hdoc
      obtain ⟨i, hok, hm⟩ := validateFields_ok_of_all schema.fields fields hdoc
      exact ⟨i, by rw [hres, ht]; simpa [model_validate_json] using hok, hm⟩
    | str s => rw [ht] at hdoc; simp [docMatches] at hdoc
    | num n => rw [ht] at hdoc; simp [docMatches] at hdoc
    | bool v => rw [ht] at hdoc; simp [docMatches] at hdoc
    | null => rw [ht] at hdoc; simp [docMatches] at hdoc
    | arr elems => rw [ht] at hdoc; simp [docMatches] at hdoc
  · intro hdoc
    cases ht : b.text with
    | obj fields =>
      rw [ht] at hdoc
      simp only [docMatches] at hdoc
      obtain ⟨m, hm⟩ := validateFields_error_of_not_all schema.fields fields hdoc
      exact ⟨m, by rw [hres, ht]; simpa [model_validate_json] using hm⟩
    | str s => exact ⟨"Input should be an object", by rw [hres, ht]; rfl⟩
    | num n => exact ⟨"Input should be an object", by rw [hres, ht]; rfl⟩
    | bool v => exact ⟨"Input should be an object", by rw [hres, ht]; rfl⟩
    | null => exact ⟨"Input should be an object", by rw [hres, ht]; rfl⟩
    | arr elems => exact ⟨"Input should be an object", by rw [hres, ht]; rfl⟩

/-- C5 witness: the theorem evaluated at the `Person` schema and a response
document `\x7b"name": "Jane", "age": 25\x7d` that matches it. -/
theorem generate_structured_validates_witness :
    ((fun _ => (⟨[⟨.obj [("name", .str "Jane"), ("age", .num 25)]⟩]⟩ :
        AnthropicResponse Json))
      (structuredRequest ⟨"claude-3", ⟨none⟩⟩ "extract"
        ⟨"Person", [("name", .str), ("age", .int)]⟩ (0.7 : Rat) none)).content =
      ⟨.obj [("name", .str "Jane"), ("age", .num 25)]⟩ :: [] ∧
    (∃ i, (AnthropicProvider.generate_structured
        (fun _ => ⟨[⟨.obj [("name", .str "Jane"), ("age", .num 25)]⟩]⟩)
        ⟨"claude-3", ⟨none⟩⟩ "extract" ⟨"Person", [("name", .str), ("age", .int)]⟩
        (0.7 : Rat) none).2 = .ok i ∧
      instMatches ⟨"Person", [("name", .str), ("age", .int)]⟩ i = true) :=
  ⟨rfl,
    (generate_structured_validates
      (fun _ => ⟨[⟨.obj [("name", .str "Jane"), ("age", .num 25)]⟩]⟩)
      ⟨"claude-3", ⟨none⟩⟩ "extract" ⟨"Person", [("name", .str), ("age", .int)]⟩
      (0.7 : Rat) none ⟨.obj [("name", .str "Jane"), ("age", .num 25)]⟩ []
      rfl).1 (by decide)⟩

end OneClient
